import Mathlib

/-!
Verification of the clock-driving testbench in `src/sim/sim_main.cpp`.

The driver is a single linear procedure: it registers the command-line
arguments with the simulation runtime, heap-allocates one model instance,
initializes the model's clock input to 0, runs a for loop of `cycles = 10`
iterations in which it raises the clock and evaluates the model, then lowers
the clock and evaluates again, prints "Sim done" to standard output, deletes
the model and returns 0.

We embed the driver shallowly as a function from its inputs (`argc`, `argv`)
to the sequence of events observable at its boundary (runtime registration,
model construction and destruction, clock-input writes, evaluation calls,
stream output) together with the returned status code.
-/

/-- Events observable at the boundary between the driver and its environment:
the argument-registration call `Verilated::commandArgs(argc, argv)`, model
construction `new Vtop`, a write `top->clk = v`, a call `top->eval()`, a write
of a string to standard output, and model destruction `delete top`. -/
inductive Event where
  | commandArgs (argc : Nat) (argv : List String)
  | newModel
  | setClk (v : Nat)
  | eval
  | print (s : String)
  | deleteModel

/-- The constant `const int cycles = 10` of `main`. -/
def cycles : Nat := 10

/-- Events of one iteration of the driving loop: raise the clock, evaluate
(rising edge), lower the clock, evaluate (falling edge). -/
def loopBody : List Event :=
  [Event.setClk 1, Event.eval, Event.setClk 0, Event.eval]

/-- The driving for loop, carrying the loop counter `i` together with the
number of remaining iterations; each iteration emits `loopBody` and
increments `i`. -/
def simLoopAux : Nat → Nat → List Event
  | _, 0 => []
  | i, n + 1 => loopBody ++ simLoopAux (i + 1) n

/-- The driving for loop `for (int i = 0; i < cycles; ++i)` entered at counter
value `i`: it performs `cycles - i` iterations. -/
def simLoop (i : Nat) : List Event :=
  simLoopAux i (cycles - i)

/-- The whole of `main`, as the trace of boundary events it produces and the
status code it returns. -/
def simMain (argc : Nat) (argv : List String) : List Event × Int :=
  (Event.commandArgs argc argv ::
    Event.newModel ::
    Event.setClk 0 ::
    (simLoop 0 ++ [Event.print ("Sim done\n"), Event.deleteModel]), 0)

/-- The event trace produced by `main`. -/
def mainTrace (argc : Nat) (argv : List String) : List Event :=
  (simMain argc argv).1

/-- The status code returned by `main`. -/
def mainRet (argc : Nat) (argv : List String) : Int :=
  (simMain argc argv).2

/-- True exactly on clock-input writes. -/
def isSetClk : Event → Bool
  | Event.setClk _ => true
  | _ => false

/-- True exactly on the clock-input write of the value 1 (a rising edge). -/
def isSetClkOne : Event → Bool
  | Event.setClk 1 => true
  | _ => false

/-- True exactly on evaluation calls. -/
def isEval : Event → Bool
  | Event.eval => true
  | _ => false

/-- True exactly on writes to standard output. -/
def isPrint : Event → Bool
  | Event.print _ => true
  | _ => false

/-- True exactly on the model-construction event. -/
def isNewModel : Event → Bool
  | Event.newModel => true
  | _ => false

/-- True exactly on the model-destruction event. -/
def isDeleteModel : Event → Bool
  | Event.deleteModel => true
  | _ => false

/-- True exactly on the argument-registration event. -/
def isCmdArgs : Event → Bool
  | Event.commandArgs _ _ => true
  | _ => false

/-- The clock value observed by each evaluation call of a trace, folding the
clock-input writes over the events, starting from clock value `c`. -/
def evalClks : Nat → List Event → List Nat
  | _, [] => []
  | _, Event.setClk v :: es => evalClks v es
  | c, Event.eval :: es => c :: evalClks c es
  | c, _ :: es => evalClks c es

/-- The clock value after all events of a trace, starting from clock value
`c`. -/
def clkAfter : Nat → List Event → Nat
  | c, [] => c
  | _, Event.setClk v :: es => clkAfter v es
  | c, _ :: es => clkAfter c es

/-- The values written to the clock input, in order. -/
def setClkVals : List Event → List Nat
  | [] => []
  | Event.setClk v :: es => v :: setClkVals es
  | _ :: es => setClkVals es

/-- The last event of a trace, if any. -/
def lastEvent? : List Event → Option Event
  | [] => none
  | [e] => some e
  | _ :: es => lastEvent? es

/-- The last element of a list of clock values, if any. -/
def lastNat? : List Nat → Option Nat
  | [] => none
  | [n] => some n
  | _ :: ns => lastNat? ns

/-- `allBefore p q es` holds when every event satisfying `p` occurs strictly
before the first event satisfying `q`: all `p`-events already appear in the
prefix of `es` that stops at the first `q`-event. -/
def allBefore (p q : Event → Bool) (es : List Event) : Bool :=
  (es.takeWhile fun e => ! q e).countP p == es.countP p

/-- Holds when every occurrence of 1 in the list is immediately followed by an
occurrence of 0. -/
def fallAfterRise : List Nat → Bool
  | v :: w :: rest => (v != 1 || w == 0) && fallAfterRise (w :: rest)
  | [v] => v != 1
  | [] => true

/-- The values taken by the loop counter at the successive loop-body entries,
starting from counter value `i` with `n` remaining iterations. -/
def loopIndicesAux : Nat → Nat → List Nat
  | _, 0 => []
  | i, n + 1 => i :: loopIndicesAux (i + 1) n

/-- The values taken by the loop counter `i` at the loop-body entries of the
driving loop. -/
def loopIndices : List Nat :=
  loopIndicesAux 0 (cycles - 0)

/-- Iteration counting for the driving loop, from counter value `i` with `n`
remaining iterations. -/
def loopIterAux : Nat → Nat → Nat
  | _, 0 => 0
  | i, n + 1 => 1 + loopIterAux (i + 1) n

/-- The number of iterations the driving loop performs. -/
def loopIterations : Nat :=
  loopIterAux 0 (cycles - 0)

/-- Claim C1: in each simulated cycle the driver first sets the clock to 1 and
calls eval, then sets the clock to 0 and calls eval, so eval is called exactly
twice per cycle (`2 * cycles` times in total) and the clock values it observes
are `1, 0` repeated `cycles` times — alternating `1, 0, 1, 0, ...` — whatever
clock value `c0` the model starts with. -/
theorem eval_twice_per_cycle_alternating (argc : Nat) (argv : List String) (c0 : Nat) :
    evalClks c0 (mainTrace argc argv) = (List.replicate cycles [1, 0]).flatten ∧
    (mainTrace argc argv).countP isEval = 2 * cycles :=
  ⟨rfl, rfl⟩

/-- Claim C2: the driving loop executes exactly `cycles = 10` iterations —
the iteration count equals `cycles`, `cycles` is 10, and the trace contains
exactly one rising-edge clock write per iteration. -/
theorem loop_runs_exactly_cycles (argc : Nat) (argv : List String) :
    loopIterations = cycles ∧ cycles = 10 ∧
    (mainTrace argc argv).countP isSetClkOne = loopIterations :=
  ⟨rfl, rfl, rfl⟩

/-- Claim C3, counterexample: the claim that the driver writes nothing to any
output stream is false — at the concrete input `argc = 1`,
`argv = ["sim"]`, the trace contains a write to standard output. -/
theorem driver_silent_counterexample :
    ¬ ((mainTrace 1 ["sim"]).countP isPrint = 0) := by
  decide

/-- Claim C3, amended: beyond the model's eval calls, the only externally
visible effect of the driver itself is a single write of the line
"Sim done" (with a trailing newline) to standard output. -/
theorem driver_prints_sim_done_only (argc : Nat) (argv : List String) :
    (mainTrace argc argv).filter isPrint = [Event.print ("Sim done\n")] :=
  rfl

/-- Claim C4: the behavior of the driver does not depend on the command-line
arguments: for any two invocations the traces agree on every event other than
the argument-registration event, the eval counts agree, the status codes
agree, and the arguments are only forwarded to the registration call at the
head of the trace. -/
theorem trace_independent_of_args (a a' : Nat) (v v' : List String) :
    (mainTrace a v).filter (fun e => ! isCmdArgs e) =
      (mainTrace a' v').filter (fun e => ! isCmdArgs e) ∧
    (mainTrace a v).countP isEval = (mainTrace a' v').countP isEval ∧
    mainRet a v = mainRet a' v' ∧
    (mainTrace a v).head? = some (Event.commandArgs a v) :=
  ⟨rfl, rfl, rfl, rfl⟩

/-- Claim C5: for every input, main runs to completion (the embedding is a
total function) and returns the success status 0; no error is ever
signalled. -/
theorem main_returns_zero (argc : Nat) (argv : List String) :
    mainRet argc argv = 0 :=
  rfl

/-- Claim C6: throughout every execution the clock input is written only the
values 0 and 1, and the loop counter takes exactly the values
`0, 1, ..., cycles - 1` at the body entries, so together with its exit value
`cycles` it stays in the range `0..cycles`. -/
theorem clock_bit_and_counter_bounded (argc : Nat) (argv : List String) :
    (setClkVals (mainTrace argc argv)).all (fun v => v == 0 || v == 1) = true ∧
    loopIndices = List.range cycles ∧
    (loopIndices ++ [cycles]).all (fun j => Nat.ble j cycles) = true :=
  ⟨rfl, rfl, rfl⟩

/-- Claim C7: exactly one model instance is constructed and exactly one is
destroyed; construction happens before any clock write or eval call,
destruction happens after every eval call, and destruction is the very last
event before the program exits. -/
theorem single_model_instance_lifetime (argc : Nat) (argv : List String) :
    (mainTrace argc argv).countP isNewModel = 1 ∧
    (mainTrace argc argv).countP isDeleteModel = 1 ∧
    allBefore isNewModel (fun e => isSetClk e || isEval e) (mainTrace argc argv) = true ∧
    allBefore isEval isDeleteModel (mainTrace argc argv) = true ∧
    allBefore isSetClk isDeleteModel (mainTrace argc argv) = true ∧
    lastEvent? (mainTrace argc argv) = some Event.deleteModel :=
  ⟨rfl, rfl, rfl, rfl, rfl, rfl⟩

/-- Claim C8: the first clock-related action of the driver is the write of 0
to the clock input (so the clock is 0 before the first eval), the clock is 0
again after the trace ends (the loop exits on a falling edge), the final eval
observes clock value 0, and every eval observing clock value 1 is immediately
followed by an eval observing clock value 0 — all regardless of the model's
initial clock value `c0`. -/
theorem clock_low_at_init_and_exit (argc : Nat) (argv : List String) (c0 : Nat) :
    ((mainTrace argc argv).filter fun e => isSetClk e || isEval e).head? =
      some (Event.setClk 0) ∧
    clkAfter c0 (mainTrace argc argv) = 0 ∧
    lastNat? (evalClks c0 (mainTrace argc argv)) = some 0 ∧
    fallAfterRise (evalClks c0 (mainTrace argc argv)) = true :=
  ⟨rfl, rfl, rfl, rfl⟩

/-- Claim C9: the trace contains exactly one write to standard output, that
write is the line "Sim done" followed by a newline, it occurs after every
eval call, and it occurs before the model instance is destroyed. -/
theorem sim_done_printed_once_after_evals (argc : Nat) (argv : List String) :
    (mainTrace argc argv).countP isPrint = 1 ∧
    (mainTrace argc argv).filter isPrint = [Event.print ("Sim done\n")] ∧
    allBefore isEval isPrint (mainTrace argc argv) = true ∧
    allBefore isPrint isDeleteModel (mainTrace argc argv) = true :=
  ⟨rfl, rfl, rfl, rfl⟩

/-- Claim C10: argument registration happens exactly once, it is the first
event of the trace (receiving exactly the supplied arguments), and it occurs
before the model is constructed and before any eval call. -/
theorem commandArgs_once_before_model (argc : Nat) (argv : List String) :
    (mainTrace argc argv).countP isCmdArgs = 1 ∧
    (mainTrace argc argv).head? = some (Event.commandArgs argc argv) ∧
    allBefore isCmdArgs isNewModel (mainTrace argc argv) = true ∧
    allBefore isCmdArgs isEval (mainTrace argc argv) = true :=
  ⟨rfl, rfl, rfl, rfl⟩
